import Mathlib

/-!
Shallow embedding of the Generate-Compile-Test-Retry pipeline of
`src/scripts/llm_coach.py` (class `ScryptoLLMCoach`), together with theorems
checking the frozen claims about that script.

Modelling conventions:
* Python strings are Lean `String`; character-level work uses `List Char`
  (via `String.data`).  Python slicing `s[:n]` / `s[-n:]` is `pyTake` /
  `pyTail`; `str.strip()` is `pyStrip` (ASCII whitespace, which covers every
  input appearing in this development); the substring operator `in` is
  `containsSub`.
* The OpenAI call and the two `subprocess.run` invocations are opaque
  externals: each attempt is driven by an `AttemptEnv` describing what the
  completion service returned and how the two external processes behaved.
* The filesystem is a map from path strings to file contents (`FS`);
  `Path.mkdir(exist_ok=True)` is a no-op in this model and writes never fail
  at the OS level.
* Python `hash` is salted per process (PYTHONHASHSEED), so the builtin hash
  is modelled as an ambient function `pyHash : String → Int` supplied by the
  process; `%` on Python integers with a positive modulus agrees with `Int`
  `emod`, i.e. Lean `%`.
* `pathlib.Path.relative_to` raises `ValueError` when the base path is not a
  path prefix; in particular a relative path is never inside an absolute
  one.  This is modelled by `pyRelativeTo` returning `none` (the raising
  outcome).  The script always passes the relative path
  `output/<name>/src/lib.rs` and the absolute `Path.cwd()`, so in real runs
  this call always raises, and the `except` branch records a
  `Code generation error` attempt instead of the intended record.
* Timestamps and `print` calls are elided; they do not affect any claim.
-/

/-- ASCII whitespace recognized by Python `str.strip`. -/
def pyIsSpace (c : Char) : Bool :=
  c == ' ' || c == '\t' || c == '\n' || c == '\r' || c == '\x0b' || c == '\x0c'

/-- Python `str.strip()` on a character list. -/
def pyStrip (l : List Char) : List Char :=
  ((l.dropWhile pyIsSpace).reverse.dropWhile pyIsSpace).reverse

/-- Python slicing `s[:n]`. -/
def pyTake (n : Nat) (s : String) : String :=
  String.mk (s.data.take n)

/-- Python slicing `s[-n:]` (the last `n` characters, or all of `s` when it
is shorter than `n`). -/
def pyTail (n : Nat) (s : String) : String :=
  String.mk (s.data.drop (s.data.length - n))

/-- Index of the first occurrence of `pat` as a contiguous sublist of `s`,
scanning left to right. -/
def firstOccur (pat : List Char) : List Char → Option Nat
  | [] => if pat.isPrefixOf ([] : List Char) then some 0 else none
  | c :: rest =>
    if pat.isPrefixOf (c :: rest) then some 0
    else (firstOccur pat rest).map (· + 1)

/-- Python substring test `pat in s`. -/
def containsSub (pat s : List Char) : Bool :=
  (firstOccur pat s).isSome

/-- First match of the regex `opener(.*?)closer` under `re.DOTALL`, returning
the lazy group capture.  The regex engine picks the leftmost occurrence of
the literal `opener` and then the shortest capture, i.e. the earliest
following occurrence of `closer`. -/
def firstFenceMatch (opener closer s : List Char) : Option (List Char) :=
  match firstOccur opener s with
  | none => none
  | some i =>
    match firstOccur closer (s.drop (i + opener.length)) with
    | none => none
    | some j => some ((s.drop (i + opener.length)).take j)

/-- The `scrypto_indicators` list of `_looks_like_scrypto`. -/
def scryptoIndicators : List (List Char) :=
  [ "use scrypto::prelude::*".data
  , "#[blueprint]".data
  , "impl".data
  , "ResourceAddress".data
  , "ComponentAddress".data
  , "Bucket".data
  , "Vault".data ]

/-- `ScryptoLLMCoach._looks_like_scrypto`: the text contains at least one of
the fixed indicator substrings. -/
def _looks_like_scrypto (code : List Char) : Bool :=
  scryptoIndicators.any (fun ind => containsSub ind code)

/-- The `code_patterns` list of `_extract_scrypto_code`, each regex reduced
to its literal opener and closer around the lazy group. -/
def codePatterns : List (List Char × List Char) :=
  [ ("```rust\n".data, "\n```".data)
  , ("```scrypto\n".data, "\n```".data)
  , ("```\n".data, "\n```".data)
  , ("```rust".data, "```".data)
  , ("```".data, "```".data) ]

/-- The pattern loop of `_extract_scrypto_code`: for each pattern in order,
take its first match (Python `matches[0]`), strip it, and return it when it
passes `_looks_like_scrypto`; otherwise move to the next pattern. -/
def tryPatterns : List (List Char × List Char) → List Char → Option (List Char)
  | [], _ => none
  | p :: rest, s =>
    match firstFenceMatch p.1 p.2 s with
    | some m =>
      if _looks_like_scrypto (pyStrip m) then some (pyStrip m)
      else tryPatterns rest s
    | none => tryPatterns rest s

/-- `ScryptoLLMCoach._extract_scrypto_code`: the pattern loop, then the
whole-response fallback guarded by `_looks_like_scrypto`, else `None`. -/
def _extract_scrypto_code (responseText : List Char) : Option (List Char) :=
  match tryPatterns codePatterns responseText with
  | some code => some code
  | none =>
    if _looks_like_scrypto responseText then some (pyStrip responseText)
    else none

/-- The fixed instruction template of `_build_prompt` before the optional
error section: preamble, context excerpt capped at 1500 characters,
generation rules, and the user request. -/
def basePrompt (kbContext userRequest : String) : String :=
  "You are a Scrypto (RadixDLT smart contract) code generator.\n\nCONTEXT - Key Scrypto Patterns:\n"
    ++ pyTake 1500 kbContext
    ++ "\n\nINSTRUCTIONS:\n1. Generate COMPLETE, COMPILABLE Scrypto code\n2. Include ALL necessary imports\n3. Use proper Scrypto v1.0+ syntax  \n4. Include basic tests\n5. Follow asset-oriented programming patterns\n6. Return ONLY the Rust/Scrypto code, no explanations\n\nUSER REQUEST: "
    ++ userRequest ++ "\n"

/-- The retry section appended by `_build_prompt` when `error_context` is
present. -/
def errorSection (errorContext : String) : String :=
  "\n\nPREVIOUS COMPILATION ERROR:\n" ++ errorContext
    ++ "\n\nPlease fix the above error and provide corrected code.\n"

/-- `ScryptoLLMCoach._build_prompt`. -/
def _build_prompt (kbContext userRequest : String) (errorContext : Option String) : String :=
  basePrompt kbContext userRequest
    ++ (match errorContext with
        | some e => errorSection e
        | none => "")

/-- The filesystem, as a map from path to file contents. -/
abbrev FS : Type := String → Option String

/-- The empty filesystem. -/
def emptyFS : FS := fun _ => none

/-- Writing one file: `Path.write_text` replaces any previous contents. -/
def fsWrite (fs : FS) (path contents : String) : FS :=
  fun p => if p = path then some contents else fs p

/-- The `Cargo.toml` template interpolated with the package name (braces of
the TOML tables appear escaped to their character codes). -/
def cargoTomlFor (name : String) : String :=
  "[package]\nname = \"" ++ name
    ++ "\"\nversion = \"0.1.0\"\nedition = \"2021\"\n\n[dependencies]\nscrypto = \x7b git = \"https://github.com/radixdlt/radixdlt-scrypto\", tag = \"v1.0.1\" \x7d\n\n[dev-dependencies]\nscrypto-unit = \x7b git = \"https://github.com/radixdlt/radixdlt-scrypto\", tag = \"v1.0.1\" \x7d\ntransaction = \x7b git = \"https://github.com/radixdlt/radixdlt-scrypto\", tag = \"v1.0.1\" \x7d\n\n[[bin]]\nname = \"main\"\n"

/-- `ScryptoLLMCoach._write_code_file`: create `output/<name>` (reusing it if
it exists, `exist_ok=True`), write the manifest and `src/lib.rs`, and return
the updated filesystem together with the path of the code file. -/
def _write_code_file (fs : FS) (code name : String) : FS × String :=
  let packageDir := "output/" ++ name
  let fs1 := fsWrite fs (packageDir ++ "/Cargo.toml") (cargoTomlFor name)
  let codeFile := packageDir ++ "/src/lib.rs"
  (fsWrite fs1 codeFile code, codeFile)

/-- The blueprint name `generated_<hash(prompt) % 10000>` computed in
`generate_and_test`.  `pyHash` is the builtin string hash of the running
process; CPython salts it per process via PYTHONHASHSEED, so distinct runs
of the script realize distinct functions here.  Python `%` with modulus
10000 agrees with `Int` emod, which is the `%` below. -/
def blueprintName (pyHash : String → Int) (prompt : String) : String :=
  "generated_" ++ toString (pyHash prompt % 10000)

/-- Models `pathlib.Path.relative_to(p, base)`: the suffix of `p` after the
path prefix `base`, or `none` for the `ValueError` outcome when `base` is
not a path prefix of `p`.  A relative path (such as the
`output/<name>/src/lib.rs` produced by `_write_code_file`) is never inside
an absolute base (such as `Path.cwd()`), so the call in `generate_and_test`
always takes the `none` branch in a real run. -/
def pyRelativeTo (p base : String) : Option String :=
  if p = base then some "."
  else if (base ++ "/").data.isPrefixOf p.data then
    some (String.mk (p.data.drop (base.data.length + 1)))
  else none

/-- The message of the `ValueError` raised by `Path.relative_to` (paraphrase
of the CPython text, whose exact wording varies by version). -/
def relativeToErrMsg (p base : String) : String :=
  p ++ " is not in the subpath of " ++ base

/-- Behaviour of one external `subprocess.run` call: normal completion with
an exit code and captured output, `subprocess.TimeoutExpired`,
`FileNotFoundError` (the binary cannot be located), or any other exception. -/
inductive ProcOutcome where
  | completed (exitCode : Int) (stdout stderr : String)
  | timedOut
  | toolMissing
  | raised (msg : String)
deriving DecidableEq

/-- Behaviour of the two external processes used by one `_run_tests` call. -/
structure RunEnv where
  check : ProcOutcome
  test : ProcOutcome
deriving DecidableEq

/-- The `timeout=60` argument of the `cargo check` call. -/
def checkTimeoutSecs : Nat := 60

/-- The `timeout=120` argument of the `cargo test` call. -/
def testTimeoutSecs : Nat := 120

/-- Result of `_run_tests`: the `(success, output, test_type)` triple the
Python function returns, plus the list of external processes actually
invoked (instrumentation used to state that the test phase is skipped). -/
structure RunResult where
  success : Bool
  output : String
  kind : String
  procs : List String
deriving DecidableEq

/-- `ScryptoLLMCoach._run_tests`: run `cargo check`; on a non-zero exit
return its stderr as `compilation_error` without running the test phase;
otherwise run `cargo test` and report `test_complete` with combined
stdout+stderr.  The surrounding `try` turns `TimeoutExpired`,
`FileNotFoundError` and any other exception of either phase into the
`timeout`, `missing_cargo` and `execution_error` triples; the function is
total and never propagates an exception. -/
def _run_tests (env : RunEnv) : RunResult :=
  match env.check with
  | ProcOutcome.timedOut =>
    ⟨false, "Test execution timed out", "timeout", ["cargo check"]⟩
  | ProcOutcome.toolMissing =>
    ⟨false, "cargo command not found", "missing_cargo", ["cargo check"]⟩
  | ProcOutcome.raised m =>
    ⟨false, "Test execution failed: " ++ m, "execution_error", ["cargo check"]⟩
  | ProcOutcome.completed c _ cerr =>
    if c ≠ 0 then
      ⟨false, cerr, "compilation_error", ["cargo check"]⟩
    else
      match env.test with
      | ProcOutcome.timedOut =>
        ⟨false, "Test execution timed out", "timeout", ["cargo check", "cargo test"]⟩
      | ProcOutcome.toolMissing =>
        ⟨false, "cargo command not found", "missing_cargo", ["cargo check", "cargo test"]⟩
      | ProcOutcome.raised m =>
        ⟨false, "Test execution failed: " ++ m, "execution_error", ["cargo check", "cargo test"]⟩
      | ProcOutcome.completed t tout terr =>
        ⟨t == 0, tout ++ terr, "test_complete", ["cargo check", "cargo test"]⟩

/-- Behaviour of the completion service on one attempt: the response text of
`response.choices[0].message.content`, or an exception raised inside the
generation `try` block. -/
inductive GenOutcome where
  | response (text : String)
  | apiError (msg : String)
deriving DecidableEq

/-- External behaviour driving one attempt of `generate_and_test`. -/
structure AttemptEnv where
  gen : GenOutcome
  run : RunEnv
deriving DecidableEq

/-- One entry of `result["attempts"]`.  Fields that a given branch of the
Python code does not put into the dict stay `none`. -/
structure AttemptRec where
  attempt : Nat
  status : String
  error : Option String := none
  response_preview : Option String := none
  code_file : Option String := none
  test_output : Option String := none
  test_type : Option String := none
deriving DecidableEq

/-- What one attempt did, recorded for the execution trace: failure inside
the generation `try` block, extraction failure, or an attempt that wrote the
artifact and ran `_run_tests`.  In the `recordError` case the dict
construction then raised `ValueError` in `Path.relative_to` and the
`except` branch recorded a generic failure; in the `ran` case the dict was
built.  `codeFile` is the path the artifact writer produced. -/
inductive StageOutcome where
  | apiFailed (msg : String)
  | extractFailed (preview : String)
  | recordError (codeFile : String) (success : Bool) (output : String) (kind : String)
  | ran (codeFile : String) (success : Bool) (output : String) (kind : String)
deriving DecidableEq

/-- The artifact path written by an attempt, when it reached the write
stage. -/
def writtenPath : StageOutcome → Option String
  | StageOutcome.recordError p _ _ _ => some p
  | StageOutcome.ran p _ _ _ => some p
  | _ => none

/-- The `test_type` classification produced by `_run_tests` on an attempt
that reached the runner. -/
def outcomeKind : StageOutcome → Option String
  | StageOutcome.recordError _ _ _ k => some k
  | StageOutcome.ran _ _ _ k => some k
  | _ => none

/-- The diagnostic output produced by `_run_tests` on an attempt that
reached the runner. -/
def outcomeOutput : StageOutcome → Option String
  | StageOutcome.recordError _ _ o _ => some o
  | StageOutcome.ran _ _ o _ => some o
  | _ => none

/-- One attempt of the execution trace: the 0-based ordinal, the
`error_context` value passed to `_build_prompt` for this attempt, and what
the attempt did. -/
structure TraceEntry where
  idx : Nat
  ec : Option String
  outcome : StageOutcome
deriving DecidableEq

/-- The observable state of one `generate_and_test` run: the fields of the
Python `result` dict (timestamp elided), plus the execution trace and the
filesystem, which instrument the side effects. -/
structure RunState where
  prompt : String
  attempts : List AttemptRec
  final_status : String
  retry_count : Nat
  trace : List TraceEntry
  fs : FS

/-- The `for attempt in range(max_retries + 1)` loop of `generate_and_test`,
as structural recursion on the remaining iteration count.  `k` is the
current `attempt`, `ec` the current `error_context`.  Branches, in source
order: the generation `try` block (API error), extraction failure
(`continue`, leaving `error_context` untouched), and the write-and-test
block.  In the last one the artifact is written and `_run_tests` runs; then
`attempt_result` is built, whose `code_file` entry calls
`Path.relative_to(Path.cwd())` — if that raises (`pyRelativeTo` is `none`)
the `except` branch appends a `Code generation error` record and nothing
else of the iteration runs; otherwise the record is appended and the
success / retry logic executes. -/
def gatLoop (pyHash : String → Int) (env : Nat → AttemptEnv) (cwd : String)
    (maxRetries : Nat) : Nat → Nat → Option String → RunState → RunState
  | 0, _, _, st => st
  | rem + 1, k, ec, st =>
    match (env k).gen with
    | GenOutcome.apiError m =>
      gatLoop pyHash env cwd maxRetries rem (k + 1) ec
        { st with
          attempts := st.attempts ++
            [{ attempt := k + 1, status := "failed",
               error := some ("LLM API error: " ++ m) }],
          trace := st.trace ++ [⟨k, ec, StageOutcome.apiFailed m⟩] }
    | GenOutcome.response text =>
      match _extract_scrypto_code text.data with
      | none =>
        gatLoop pyHash env cwd maxRetries rem (k + 1) ec
          { st with
            attempts := st.attempts ++
              [{ attempt := k + 1, status := "failed",
                 error := some "Could not extract valid Scrypto code",
                 response_preview := some (pyTake 200 text) }],
            trace := st.trace ++ [⟨k, ec, StageOutcome.extractFailed (pyTake 200 text)⟩] }
      | some codeChars =>
        match pyRelativeTo (_write_code_file st.fs (String.mk codeChars)
            (blueprintName pyHash st.prompt)).2 cwd with
        | none =>
          gatLoop pyHash env cwd maxRetries rem (k + 1) ec
            { st with
              fs := (_write_code_file st.fs (String.mk codeChars)
                (blueprintName pyHash st.prompt)).1,
              attempts := st.attempts ++
                [{ attempt := k + 1, status := "failed",
                   error := some ("Code generation error: "
                     ++ relativeToErrMsg (_write_code_file st.fs (String.mk codeChars)
                          (blueprintName pyHash st.prompt)).2 cwd) }],
              trace := st.trace ++
                [⟨k, ec, StageOutcome.recordError
                    (_write_code_file st.fs (String.mk codeChars)
                      (blueprintName pyHash st.prompt)).2
                    (_run_tests (env k).run).success
                    (_run_tests (env k).run).output
                    (_run_tests (env k).run).kind⟩] }
        | some rel =>
          if (_run_tests (env k).run).success then
            { st with
              fs := (_write_code_file st.fs (String.mk codeChars)
                (blueprintName pyHash st.prompt)).1,
              attempts := st.attempts ++
                [{ attempt := k + 1, status := "passed",
                   code_file := some rel,
                   test_output := some (_run_tests (env k).run).output,
                   test_type := some (_run_tests (env k).run).kind }],
              trace := st.trace ++
                [⟨k, ec, StageOutcome.ran
                    (_write_code_file st.fs (String.mk codeChars)
                      (blueprintName pyHash st.prompt)).2
                    true (_run_tests (env k).run).output
                    (_run_tests (env k).run).kind⟩],
              final_status := "passed",
              retry_count := k }
          else if k < maxRetries then
            gatLoop pyHash env cwd maxRetries rem (k + 1)
              (some (pyTail 1000 (_run_tests (env k).run).output))
              { st with
                fs := (_write_code_file st.fs (String.mk codeChars)
                  (blueprintName pyHash st.prompt)).1,
                attempts := st.attempts ++
                  [{ attempt := k + 1, status := "failed",
                     code_file := some rel,
                     test_output := some (_run_tests (env k).run).output,
                     test_type := some (_run_tests (env k).run).kind }],
                trace := st.trace ++
                  [⟨k, ec, StageOutcome.ran
                      (_write_code_file st.fs (String.mk codeChars)
                        (blueprintName pyHash st.prompt)).2
                      false (_run_tests (env k).run).output
                      (_run_tests (env k).run).kind⟩],
                retry_count := k + 1 }
          else
            gatLoop pyHash env cwd maxRetries rem (k + 1) ec
              { st with
                fs := (_write_code_file st.fs (String.mk codeChars)
                  (blueprintName pyHash st.prompt)).1,
                attempts := st.attempts ++
                  [{ attempt := k + 1, status := "failed",
                     code_file := some rel,
                     test_output := some (_run_tests (env k).run).output,
                     test_type := some (_run_tests (env k).run).kind }],
                trace := st.trace ++
                  [⟨k, ec, StageOutcome.ran
                      (_write_code_file st.fs (String.mk codeChars)
                        (blueprintName pyHash st.prompt)).2
                      false (_run_tests (env k).run).output
                      (_run_tests (env k).run).kind⟩] }

/-- `ScryptoLLMCoach.generate_and_test` (call sites pass `maxRetries = 1`,
the Python default).  Fresh `result` dict, `error_context = None`, then the
attempt loop. -/
def generate_and_test (pyHash : String → Int) (env : Nat → AttemptEnv)
    (cwd : String) (prompt : String) (maxRetries : Nat) : RunState :=
  gatLoop pyHash env cwd maxRetries (maxRetries + 1) 0 none
    { prompt := prompt, attempts := [], final_status := "failed",
      retry_count := 0, trace := [], fs := emptyFS }

/-- The `summary` dict computed by `_save_results`.  `retry_rate` is exact
rational arithmetic in place of the Python float division. -/
structure Summary where
  total_attempts : Nat
  successful : Nat
  failed : Nat
  retry_rate : ℚ
deriving DecidableEq

/-- The `output_data` document `_save_results` serializes to `results.json`
(timestamp elided). -/
structure SavedDoc where
  results : List RunState
  summary : Summary

/-- `ScryptoLLMCoach._save_results`: recompute the summary from the full
result collection and persist collection plus summary.  The comprehensions
`sum(1 for r in results if ...)` are sums of indicator values. -/
def _save_results (results : List RunState) : SavedDoc :=
  { results := results
    summary :=
      { total_attempts := results.length
        successful := (results.map (fun r => if r.final_status = "passed" then 1 else 0)).sum
        failed := (results.map (fun r => if r.final_status = "failed" then 1 else 0)).sum
        retry_rate :=
          if results.isEmpty then 0
          else ((results.map (fun r => (r.retry_count : ℚ))).sum) / (results.length : ℚ) } }

/-- The `for i, prompt in enumerate(prompts)` loop of `batch_generate`:
process requests in order with the Python-default retry bound 1, append each
result, and persist the accumulated collection after every append.  `envs i`
drives the attempts of request `i`.  Returns the final result list and the
ordered list of persisted documents (one per request). -/
def batchLoop (pyHash : String → Int) (envs : Nat → Nat → AttemptEnv) (cwd : String) :
    List String → Nat → List RunState → List RunState × List SavedDoc
  | [], _, acc => (acc, [])
  | p :: rest, i, acc =>
    let r := generate_and_test pyHash (envs i) cwd p 1
    let step := batchLoop pyHash envs cwd rest (i + 1) (acc ++ [r])
    (step.1, _save_results (acc ++ [r]) :: step.2)

/-- `ScryptoLLMCoach.batch_generate`. -/
def batch_generate (pyHash : String → Int) (envs : Nat → Nat → AttemptEnv)
    (cwd : String) (prompts : List String) : List RunState × List SavedDoc :=
  batchLoop pyHash envs cwd prompts 0 []

/-- Proof-side mirror of the results a batch accumulates, used to state how
the persisted snapshots relate to the final collection. -/
def resList (pyHash : String → Int) (envs : Nat → Nat → AttemptEnv) (cwd : String) :
    List String → Nat → List RunState
  | [], _ => []
  | p :: rest, i => generate_and_test pyHash (envs i) cwd p 1 :: resList pyHash envs cwd rest (i + 1)

/-- A response whose fenced block is accepted by the extractor. -/
def goodResponse : String := "```rust\nuse scrypto::prelude::*;\n```"

/-- Attempt environment in which every attempt extracts code and then fails
`cargo check` with exit code 1 and stderr `E0`. -/
def buildFailEnv : Nat → AttemptEnv := fun _ =>
  { gen := GenOutcome.response goodResponse
    run := { check := ProcOutcome.completed 1 "" "E0"
             test := ProcOutcome.completed 0 "" "" } }

/-- Attempt environment in which every attempt extracts code, passes
`cargo check` and passes `cargo test` with stdout `ok`. -/
def passEnv : Nat → AttemptEnv := fun _ =>
  { gen := GenOutcome.response goodResponse
    run := { check := ProcOutcome.completed 0 "" ""
             test := ProcOutcome.completed 0 "ok" "" } }

/-- Attempt environment in which every response contains no code block and
no indicator token, so extraction fails on every attempt. -/
def extractFailEnv : Nat → AttemptEnv := fun _ =>
  { gen := GenOutcome.response "I cannot help with that."
    run := { check := ProcOutcome.completed 0 "" ""
             test := ProcOutcome.completed 0 "" "" } }

/-- A prose response with no code fence whose text nevertheless contains the
substring `impl` inside the word `simple`. -/
def proseResponse : String := "This is a simple explanation, not code."

/-! Helper lemmas shared by the claim theorems. -/

theorem append_failed_no_pass {l : List AttemptRec}
    (h : ∀ r ∈ l, r.status ≠ "passed") (rec : AttemptRec) (hrec : rec.status = "failed") :
    ∀ r ∈ l ++ [rec], r.status ≠ "passed" := by
  intro r hr
  rcases List.mem_append.mp hr with h1 | h2
  · exact h r h1
  · rw [List.mem_singleton] at h2
    subst h2
    rw [hrec]
    decide

theorem gatLoop_passed_last (pyHash : String → Int) (env : Nat → AttemptEnv) (cwd : String)
    (maxRetries : Nat) : ∀ rem k ec st,
    (∀ r ∈ st.attempts, r.status ≠ "passed") →
    ∀ i rec, (gatLoop pyHash env cwd maxRetries rem k ec st).attempts.get? i = some rec →
      rec.status = "passed" →
      i + 1 = (gatLoop pyHash env cwd maxRetries rem k ec st).attempts.length := by
  intro rem
  induction rem with
  | zero =>
    intro k ec st hst i rec hget hp
    exact absurd hp (hst rec (List.get?_mem hget))
  | succ n ih =>
    intro k ec st hst
    simp only [gatLoop]
    split
    · refine ih _ _ _ ?_
      exact append_failed_no_pass hst _ rfl
    · split
      · refine ih _ _ _ ?_
        exact append_failed_no_pass hst _ rfl
      · split
        · refine ih _ _ _ ?_
          exact append_failed_no_pass hst _ rfl
        · split
          · intro i rec hget hp
            dsimp only at hget ⊢
            by_cases hi : i < st.attempts.length
            · exfalso
              rw [List.get?_append hi] at hget
              exact hst rec (List.get?_mem hget) hp
            · have hlt := (List.get?_eq_some.mp hget).1
              simp only [List.length_append, List.length_cons, List.length_nil] at hlt ⊢
              omega
          · split
            · refine ih _ _ _ ?_
              exact append_failed_no_pass hst _ rfl
            · refine ih _ _ _ ?_
              exact append_failed_no_pass hst _ rfl

theorem strDataAppend (a b : String) : (a ++ b).data = a.data ++ b.data := rfl

theorem pyRelativeTo_write_abs (fs : FS) (code name cwd : String)
    (h : cwd.data.head? = some '/') :
    pyRelativeTo (_write_code_file fs code name).2 cwd = none := by
  obtain ⟨t, ht⟩ : ∃ t, cwd.data = '/' :: t := by
    cases hc : cwd.data with
    | nil => rw [hc] at h; simp at h
    | cons a l =>
      rw [hc] at h
      simp only [List.head?_cons, Option.some_inj] at h
      exact ⟨l, by rw [h]⟩
  have hp : (_write_code_file fs code name).2.data
      = 'o' :: ("utput/".data ++ (name.data ++ "/src/lib.rs".data)) := rfl
  have h1 : (_write_code_file fs code name).2 ≠ cwd := by
    intro he
    have hd : (_write_code_file fs code name).2.data = cwd.data := by rw [he]
    rw [hp, ht] at hd
    simp at hd
  have h2 : ((cwd ++ "/").data.isPrefixOf (_write_code_file fs code name).2.data) = false := by
    have hcd : (cwd ++ "/").data = '/' :: (t ++ ['/']) := by
      rw [strDataAppend, ht]
      rfl
    rw [hcd, hp]
    simp [List.isPrefixOf]
  have h3 : ¬ ((cwd ++ "/").data.isPrefixOf (_write_code_file fs code name).2.data = true) := by
    rw [h2]
    simp
  unfold pyRelativeTo
  rw [if_neg h1, if_neg h3]

theorem gatLoop_retry_abs (pyHash : String → Int) (env : Nat → AttemptEnv) (cwd : String)
    (maxRetries : Nat) (h : cwd.data.head? = some '/') : ∀ rem k ec st,
    (gatLoop pyHash env cwd maxRetries rem k ec st).retry_count = st.retry_count := by
  intro rem
  induction rem with
  | zero => intro k ec st; simp [gatLoop]
  | succ n ih =>
    intro k ec st
    simp only [gatLoop]
    split
    · rw [ih]
    · split
      · rw [ih]
      · split
        · rw [ih]
        · next rel heq =>
          rw [pyRelativeTo_write_abs _ _ _ _ h] at heq
          exact absurd heq (by simp)

theorem trace_append_written {tr : List TraceEntry} {target : String}
    (h : ∀ e ∈ tr, ∀ d, writtenPath e.outcome = some d → d = target)
    (x : TraceEntry) (hx : ∀ d, writtenPath x.outcome = some d → d = target) :
    ∀ e ∈ tr ++ [x], ∀ d, writtenPath e.outcome = some d → d = target := by
  intro e he
  rcases List.mem_append.mp he with h1 | h2
  · exact h e h1
  · rw [List.mem_singleton] at h2
    subst h2
    exact hx

theorem gatLoop_written (pyHash : String → Int) (env : Nat → AttemptEnv) (cwd : String)
    (maxRetries : Nat) (pr : String) : ∀ rem k ec st,
    st.prompt = pr →
    (∀ e ∈ st.trace, ∀ d, writtenPath e.outcome = some d →
      d = "output/" ++ blueprintName pyHash pr ++ "/src/lib.rs") →
    ∀ e ∈ (gatLoop pyHash env cwd maxRetries rem k ec st).trace, ∀ d,
      writtenPath e.outcome = some d →
      d = "output/" ++ blueprintName pyHash pr ++ "/src/lib.rs" := by
  intro rem
  induction rem with
  | zero =>
    intro k ec st _ htr
    simpa [gatLoop] using htr
  | succ n ih =>
    intro k ec st hpr htr
    simp only [gatLoop]
    split
    · refine ih _ _ _ hpr ?_
      refine trace_append_written htr _ ?_
      intro d hd
      exact Option.noConfusion hd
    · split
      · refine ih _ _ _ hpr ?_
        refine trace_append_written htr _ ?_
        intro d hd
        exact Option.noConfusion hd
      · split
        · refine ih _ _ _ hpr ?_
          refine trace_append_written htr _ ?_
          intro d hd
          rw [writtenPath] at hd
          rw [← Option.some_inj.mp hd, hpr]
          rfl
        · split
          · refine trace_append_written htr _ ?_
            intro d hd
            rw [writtenPath] at hd
            rw [← Option.some_inj.mp hd, hpr]
            rfl
          · split
            · refine ih _ _ _ hpr ?_
              refine trace_append_written htr _ ?_
              intro d hd
              rw [writtenPath] at hd
              rw [← Option.some_inj.mp hd, hpr]
              rfl
            · refine ih _ _ _ hpr ?_
              refine trace_append_written htr _ ?_
              intro d hd
              rw [writtenPath] at hd
              rw [← Option.some_inj.mp hd, hpr]
              rfl

theorem batchLoop_fst (pyHash : String → Int) (envs : Nat → Nat → AttemptEnv) (cwd : String) :
    ∀ ps i acc, (batchLoop pyHash envs cwd ps i acc).1 = acc ++ resList pyHash envs cwd ps i := by
  intro ps
  induction ps with
  | nil => intro i acc; simp [batchLoop, resList]
  | cons p rest ih =>
    intro i acc
    simp only [batchLoop, resList]
    rw [ih]
    simp

theorem batchLoop_saves_len (pyHash : String → Int) (envs : Nat → Nat → AttemptEnv) (cwd : String) :
    ∀ ps i acc, (batchLoop pyHash envs cwd ps i acc).2.length = ps.length := by
  intro ps
  induction ps with
  | nil => intro i acc; simp [batchLoop]
  | cons p rest ih =>
    intro i acc
    simp only [batchLoop, List.length_cons]
    rw [ih]

theorem batchLoop_saves_get (pyHash : String → Int) (envs : Nat → Nat → AttemptEnv) (cwd : String) :
    ∀ ps i acc k, k < ps.length →
    (batchLoop pyHash envs cwd ps i acc).2.get? k =
      some (_save_results (acc ++ (resList pyHash envs cwd ps i).take (k + 1))) := by
  intro ps
  induction ps with
  | nil => intro i acc k hk; simp at hk
  | cons p rest ih =>
    intro i acc k hk
    cases k with
    | zero => simp [batchLoop, resList]
    | succ k =>
      simp only [batchLoop, resList, List.get?_cons_succ, List.take_succ_cons]
      rw [ih _ _ k (by simpa using hk)]
      simp

theorem save_successful_count (rs : List RunState) :
    (_save_results rs).summary.successful = rs.countP (fun r => decide (r.final_status = "passed")) := by
  induction rs with
  | nil => rfl
  | cons a l ih =>
    simp only [_save_results, List.map_cons, List.sum_cons] at *
    rw [List.countP_cons]
    by_cases h : a.final_status = "passed"
    · simp [h, ih]
      omega
    · simp [h, ih]

theorem save_failed_count (rs : List RunState) :
    (_save_results rs).summary.failed = rs.countP (fun r => decide (r.final_status = "failed")) := by
  induction rs with
  | nil => rfl
  | cons a l ih =>
    simp only [_save_results, List.map_cons, List.sum_cons] at *
    rw [List.countP_cons]
    by_cases h : a.final_status = "failed"
    · simp [h, ih]
      omega
    · simp [h, ih]

theorem save_retry_rate_mul (rs : List RunState) :
    (_save_results rs).summary.retry_rate * (rs.length : ℚ)
      = ((rs.map (fun r => (r.retry_count : ℚ))).sum) := by
  by_cases h : rs.isEmpty
  · rw [List.isEmpty_iff] at h
    subst h
    simp [_save_results]
  · have h' : rs.isEmpty = false := by simpa using h
    simp only [_save_results, h', Bool.false_eq_true, if_false]
    rw [div_mul_cancel₀]
    rw [List.isEmpty_iff] at h
    simpa using h

theorem tryPatterns_eq_find (ps : List (List Char × List Char)) (s : List Char) :
    tryPatterns ps s =
      (ps.filterMap (fun p => (firstFenceMatch p.1 p.2 s).map pyStrip)).find? _looks_like_scrypto := by
  induction ps with
  | nil => rfl
  | cons p rest ih =>
    simp only [tryPatterns, List.filterMap_cons]
    cases h : firstFenceMatch p.1 p.2 s with
    | none => simpa using ih
    | some m =>
      cases hl : _looks_like_scrypto (pyStrip m) with
      | true => simp [hl, List.find?_cons]
      | false => simp [hl, List.find?_cons, ih]

theorem resList_length (pyHash : String → Int) (envs : Nat → Nat → AttemptEnv) (cwd : String) :
    ∀ ps i, (resList pyHash envs cwd ps i).length = ps.length := by
  intro ps
  induction ps with
  | nil => intro i; rfl
  | cons p rest ih =>
    intro i
    simp only [resList, List.length_cons, ih]

theorem gatLoop_length_le (pyHash : String → Int) (env : Nat → AttemptEnv) (cwd : String)
    (maxRetries : Nat) : ∀ rem k ec st,
    (gatLoop pyHash env cwd maxRetries rem k ec st).attempts.length ≤ st.attempts.length + rem := by
  intro rem
  induction rem with
  | zero => intro k ec st; simp [gatLoop]
  | succ n ih =>
    intro k ec st
    simp only [gatLoop]
    split
    · exact le_trans (ih _ _ _)
        (by simp only [List.length_append, List.length_cons, List.length_nil]; omega)
    · split
      · exact le_trans (ih _ _ _)
          (by simp only [List.length_append, List.length_cons, List.length_nil]; omega)
      · split
        · exact le_trans (ih _ _ _)
            (by simp only [List.length_append, List.length_cons, List.length_nil]; omega)
        · split
          · simp only [List.length_append, List.length_cons, List.length_nil]; omega
          · split
            · exact le_trans (ih _ _ _)
                (by simp only [List.length_append, List.length_cons, List.length_nil]; omega)
            · exact le_trans (ih _ _ _)
                (by simp only [List.length_append, List.length_cons, List.length_nil]; omega)

set_option maxRecDepth 8000

/-- C2: for every run of `generate_and_test`, the recorded attempt list has
length at most `max_retries + 1`, and an attempt with status `passed` can
only be the final attempt of the list — the loop breaks right after
appending it, so no later attempt exists. -/
theorem c2_attempt_sequence_invariant (pyHash : String → Int) (env : Nat → AttemptEnv)
    (cwd prompt : String) (maxRetries : Nat) :
    (generate_and_test pyHash env cwd prompt maxRetries).attempts.length ≤ maxRetries + 1
    ∧ ∀ i rec, (generate_and_test pyHash env cwd prompt maxRetries).attempts.get? i = some rec →
        rec.status = "passed" →
        i + 1 = (generate_and_test pyHash env cwd prompt maxRetries).attempts.length := by
  constructor
  · have h := gatLoop_length_le pyHash env cwd maxRetries (maxRetries + 1) 0 none
      { prompt := prompt, attempts := [], final_status := "failed",
        retry_count := 0, trace := [], fs := emptyFS }
    simpa [generate_and_test] using h
  · intro i rec hget hp
    unfold generate_and_test at hget ⊢
    exact gatLoop_passed_last pyHash env cwd maxRetries (maxRetries + 1) 0 none _
      (by simp) i rec hget hp

/-- Witness for C2 at a concrete input: a run that passes on its first
attempt (possible in the model only when the working directory happens to be
a path prefix of the artifact path, here `output`) has one attempt, within
the bound 2 for `max_retries = 1`, and the passing attempt is the last. -/
theorem c2_attempt_sequence_invariant_witness :
    (generate_and_test (fun _ => 7) passEnv "output" "p2" 1).attempts.length ≤ 2
    ∧ 0 + 1 = (generate_and_test (fun _ => 7) passEnv "output" "p2" 1).attempts.length := by
  constructor
  · exact (c2_attempt_sequence_invariant (fun _ => 7) passEnv "output" "p2" 1).1
  · exact (c2_attempt_sequence_invariant (fun _ => 7) passEnv "output" "p2" 1).2 0
      { attempt := 1, status := "passed", code_file := some "generated_7/src/lib.rs",
        test_output := some "ok", test_type := some "test_complete" } rfl rfl

/-- C1: evaluation of `generate_and_test` at the failing input.  Attempt 0
extracts code, writes the artifact, and fails `cargo check` with diagnostic
`E0` (`compilation_error`), so per the claim attempt 1 should receive
`error_context = E0` (the last 1000 characters).  In the code the attempt
dict never finishes being built: `Path.relative_to(Path.cwd())` raises
`ValueError` on the relative artifact path, the `except` branch appends a
generic `Code generation error` record, and line 270, which would assign
`error_context`, is never reached.  Hence the `error_context` passed to the
prompt builder is `None` for both attempts, and the prompt of attempt 1
contains no prior-error section even though attempt 0 was a build failure. -/
theorem c1_error_context_never_threaded :
    (generate_and_test (fun _ => 0) buildFailEnv "/app" "p1" 1).trace.map TraceEntry.ec
        = [none, none]
    ∧ (generate_and_test (fun _ => 0) buildFailEnv "/app" "p1" 1).trace.map
        (fun e => outcomeKind e.outcome)
        = [some "compilation_error", some "compilation_error"]
    ∧ (generate_and_test (fun _ => 0) buildFailEnv "/app" "p1" 1).trace.map
        (fun e => outcomeOutput e.outcome) = [some "E0", some "E0"]
    ∧ (generate_and_test (fun _ => 0) buildFailEnv "/app" "p1" 1).attempts.map
        (fun r => r.error)
        = [some ("Code generation error: "
            ++ relativeToErrMsg "output/generated_0/src/lib.rs" "/app"),
           some ("Code generation error: "
            ++ relativeToErrMsg "output/generated_0/src/lib.rs" "/app")]
    ∧ containsSub "PREVIOUS COMPILATION ERROR".data (_build_prompt "" "p1" none).data = false :=
  ⟨rfl, rfl, rfl, rfl, rfl⟩

/-- C3, counterexample: with `max_retries = 1` and both attempts ending in a
build failure, the attempt list is exhausted with 2 attempts (last ordinal
1 = `max_retries`), yet the recorded `retry_count` is 0 — not the ordinal of
the last attempt and not `max_retries`.  The updates of `retry_count` sit
after the attempt-dict construction, which always raises `ValueError` in
`Path.relative_to`, so they never execute. -/
theorem c3_counterexample_retry_count_not_last_ordinal :
    (generate_and_test (fun _ => 0) buildFailEnv "/app" "p3" 1).final_status = "failed"
    ∧ (generate_and_test (fun _ => 0) buildFailEnv "/app" "p3" 1).attempts.length = 2
    ∧ (generate_and_test (fun _ => 0) buildFailEnv "/app" "p3" 1).retry_count = 0
    ∧ (generate_and_test (fun _ => 0) buildFailEnv "/app" "p3" 1).retry_count
        ≠ (generate_and_test (fun _ => 0) buildFailEnv "/app" "p3" 1).attempts.length - 1 := by
  refine ⟨rfl, rfl, rfl, ?_⟩
  intro h
  rw [show (generate_and_test (fun _ => 0) buildFailEnv "/app" "p3" 1).retry_count = 0 from rfl,
    show (generate_and_test (fun _ => 0) buildFailEnv "/app" "p3" 1).attempts.length = 2 from rfl]
      at h
  exact absurd h (by decide)

/-- C3, amended: whenever the working directory is absolute (its first
character is a slash, which is always the case for `Path.cwd()`), the
`retry_count` recorded in the final result is 0 in every run, whatever the
attempts did: the `ValueError` raised while building the attempt record
prevents every update of `retry_count`, so it tracks neither the ordinal of
the last attempt nor `max_retries` on exhaustion. -/
theorem c3_retry_count_always_zero (pyHash : String → Int) (env : Nat → AttemptEnv)
    (cwd prompt : String) (maxRetries : Nat) (h : cwd.data.head? = some '/') :
    (generate_and_test pyHash env cwd prompt maxRetries).retry_count = 0 := by
  have hz := gatLoop_retry_abs pyHash env cwd maxRetries h (maxRetries + 1) 0 none
    { prompt := prompt, attempts := [], final_status := "failed",
      retry_count := 0, trace := [], fs := emptyFS }
  simpa [generate_and_test] using hz

/-- Witness for C3 (amended) at a concrete input. -/
theorem c3_retry_count_always_zero_witness :
    ("/app" : String).data.head? = some '/'
    ∧ (generate_and_test (fun _ => 0) extractFailEnv "/app" "p3w" 1).retry_count = 0 :=
  ⟨rfl, c3_retry_count_always_zero (fun _ => 0) extractFailEnv "/app" "p3w" 1 rfl⟩

/-- C4: the two-phase protocol of `_run_tests`.  If the compile check exits
non-zero, the result is failure with the checks stderr as diagnostic and
kind `compilation_error`, and the test process is never invoked (only
`cargo check` appears in the process log).  If the check exits zero and the
test process completes, both processes ran, the result succeeds exactly when
the test exit code is zero, and the diagnostic is the combined
stdout+stderr of the test process. -/
theorem c4_two_phase_protocol (env : RunEnv) (c t : Int) (co ce tso tse : String) :
    (env.check = ProcOutcome.completed c co ce → c ≠ 0 →
      _run_tests env = ⟨false, ce, "compilation_error", ["cargo check"]⟩)
    ∧ (env.check = ProcOutcome.completed c co ce → c = 0 →
        env.test = ProcOutcome.completed t tso tse →
        (((_run_tests env).success = true ↔ t = 0)
          ∧ (_run_tests env).output = tso ++ tse
          ∧ (_run_tests env).kind = "test_complete"
          ∧ (_run_tests env).procs = ["cargo check", "cargo test"])) := by
  constructor
  · intro h hc
    simp [_run_tests, h, hc]
  · intro h hc ht
    subst hc
    simp [_run_tests, h, ht]

/-- Witness for C4 at concrete inputs: one run whose check fails with exit
code 1 and stderr `boom`, and one whose check passes and whose test passes
with exit code 0. -/
theorem c4_two_phase_protocol_witness :
    _run_tests ⟨ProcOutcome.completed 1 "" "boom", ProcOutcome.completed 0 "" ""⟩
      = ⟨false, "boom", "compilation_error", ["cargo check"]⟩
    ∧ ((_run_tests ⟨ProcOutcome.completed 0 "" "", ProcOutcome.completed 0 "all ok" ""⟩).success
        = true ↔ (0 : Int) = 0) := by
  constructor
  · exact (c4_two_phase_protocol ⟨ProcOutcome.completed 1 "" "boom", ProcOutcome.completed 0 "" ""⟩
      1 0 "" "boom" "" "").1 rfl (by decide)
  · exact ((c4_two_phase_protocol ⟨ProcOutcome.completed 0 "" "", ProcOutcome.completed 0 "all ok" ""⟩
      0 0 "" "" "all ok" "").2 rfl rfl rfl).1

/-- C5: the exceptional classifications of `_run_tests`.  The deadlines are
the literals 60 and 120 passed to the two `subprocess.run` calls.  A timeout
in either phase yields kind `timeout`, a missing toolchain binary yields
`missing_cargo`, any other exception yields `execution_error`; in each case
the diagnostic is the fixed synthetic message of the `except` branch, not
captured process output.  `_run_tests` is a total function of the process
behaviour: every exceptional outcome is mapped to a returned triple, never
re-raised. -/
theorem c5_exception_classification (env : RunEnv) (c : Int) (co ce m1 m2 : String) :
    checkTimeoutSecs = 60 ∧ testTimeoutSecs = 120
    ∧ (env.check = ProcOutcome.timedOut →
        _run_tests env = ⟨false, "Test execution timed out", "timeout", ["cargo check"]⟩)
    ∧ (env.check = ProcOutcome.toolMissing →
        _run_tests env = ⟨false, "cargo command not found", "missing_cargo", ["cargo check"]⟩)
    ∧ (env.check = ProcOutcome.raised m1 →
        _run_tests env
          = ⟨false, "Test execution failed: " ++ m1, "execution_error", ["cargo check"]⟩)
    ∧ (env.check = ProcOutcome.completed c co ce → c = 0 → env.test = ProcOutcome.timedOut →
        _run_tests env
          = ⟨false, "Test execution timed out", "timeout", ["cargo check", "cargo test"]⟩)
    ∧ (env.check = ProcOutcome.completed c co ce → c = 0 → env.test = ProcOutcome.toolMissing →
        _run_tests env
          = ⟨false, "cargo command not found", "missing_cargo", ["cargo check", "cargo test"]⟩)
    ∧ (env.check = ProcOutcome.completed c co ce → c = 0 → env.test = ProcOutcome.raised m2 →
        _run_tests env
          = ⟨false, "Test execution failed: " ++ m2, "execution_error",
             ["cargo check", "cargo test"]⟩) := by
  refine ⟨rfl, rfl, ?_, ?_, ?_, ?_, ?_, ?_⟩
  · intro h
    simp [_run_tests, h]
  · intro h
    simp [_run_tests, h]
  · intro h
    simp [_run_tests, h]
  · intro h hc ht
    subst hc
    simp [_run_tests, h, ht]
  · intro h hc ht
    subst hc
    simp [_run_tests, h, ht]
  · intro h hc ht
    subst hc
    simp [_run_tests, h, ht]

/-- Witness for C5 at concrete inputs: a check-phase timeout, a missing
binary detected in the test phase, and an arbitrary exception in the test
phase. -/
theorem c5_exception_classification_witness :
    _run_tests ⟨ProcOutcome.timedOut, ProcOutcome.completed 0 "" ""⟩
      = ⟨false, "Test execution timed out", "timeout", ["cargo check"]⟩
    ∧ _run_tests ⟨ProcOutcome.completed 0 "" "", ProcOutcome.toolMissing⟩
      = ⟨false, "cargo command not found", "missing_cargo", ["cargo check", "cargo test"]⟩
    ∧ _run_tests ⟨ProcOutcome.completed 0 "" "", ProcOutcome.raised "disk full"⟩
      = ⟨false, "Test execution failed: disk full", "execution_error",
         ["cargo check", "cargo test"]⟩ := by
  refine ⟨?_, ?_, ?_⟩
  · exact (c5_exception_classification ⟨ProcOutcome.timedOut, ProcOutcome.completed 0 "" ""⟩
      0 "" "" "" "").2.2.1 rfl
  · exact (c5_exception_classification ⟨ProcOutcome.completed 0 "" "", ProcOutcome.toolMissing⟩
      0 "" "" "" "").2.2.2.2.2.2.1 rfl rfl rfl
  · exact (c5_exception_classification ⟨ProcOutcome.completed 0 "" "", ProcOutcome.raised "disk full"⟩
      0 "" "" "" "disk full").2.2.2.2.2.2.2 rfl rfl rfl

/-- C6: characterization of the extractor.  For every response text,
`_extract_scrypto_code` returns the first block, in the fixed
most-to-least-specific pattern order (each pattern contributing the first
match of its regex), whose stripped text passes the language-signature
check; when no pattern yields such a block it falls back to the whole
response, stripped, provided the response itself passes the signature
check, and returns `none` otherwise. -/
theorem c6_extractor_first_accepted_block (s : List Char) :
    _extract_scrypto_code s =
      Option.orElse
        ((codePatterns.filterMap (fun p => (firstFenceMatch p.1 p.2 s).map pyStrip)).find?
          _looks_like_scrypto)
        (fun _ => if _looks_like_scrypto s then some (pyStrip s) else none) := by
  rw [_extract_scrypto_code, tryPatterns_eq_find]
  cases h : (codePatterns.filterMap (fun p => (firstFenceMatch p.1 p.2 s).map pyStrip)).find?
      _looks_like_scrypto <;> simp [Option.orElse]

/-- C7, counterexample: a run with `max_retries = 1` in which both attempts
reach the write stage.  Both attempts write the same artifact directory:
the code file of attempt 0 and of attempt 1 is the one path
`output/generated_0/src/lib.rs` — the blueprint name depends only on the
request text, not on the attempt ordinal — so the two attempts share an
artifact, and the second write overwrites the files of the first. -/
theorem c7_counterexample_attempts_share_artifact :
    (generate_and_test (fun _ => 0) buildFailEnv "/app" "p7" 1).trace.map
        (fun e => writtenPath e.outcome)
      = [some "output/generated_0/src/lib.rs", some "output/generated_0/src/lib.rs"]
    ∧ (generate_and_test (fun _ => 0) buildFailEnv "/app" "p7" 1).attempts.length = 2 :=
  ⟨rfl, rfl⟩

/-- C7, amended: within one request, every attempt that reaches the write
stage writes into one and the same artifact path,
`output/generated_<hash(prompt) mod 10000>/src/lib.rs`; later attempts
overwrite the files of that single directory in place instead of producing
a fresh artifact.  Stated as: any two written paths recorded in the trace of
one `generate_and_test` run are equal. -/
theorem c7_all_attempts_write_same_artifact (pyHash : String → Int) (env : Nat → AttemptEnv)
    (cwd prompt : String) (maxRetries : Nat) (i j : Nat) (ei ej : TraceEntry) (d1 d2 : String)
    (hi : (generate_and_test pyHash env cwd prompt maxRetries).trace.get? i = some ei)
    (h1 : writtenPath ei.outcome = some d1)
    (hj : (generate_and_test pyHash env cwd prompt maxRetries).trace.get? j = some ej)
    (h2 : writtenPath ej.outcome = some d2) : d1 = d2 := by
  unfold generate_and_test at hi hj
  have hall := gatLoop_written pyHash env cwd maxRetries prompt (maxRetries + 1) 0 none
    { prompt := prompt, attempts := [], final_status := "failed",
      retry_count := 0, trace := [], fs := emptyFS } rfl (by simp)
  rw [hall ei (List.get?_mem hi) d1 h1, hall ej (List.get?_mem hj) d2 h2]

/-- Witness for C7 (amended) at a concrete input: the two written paths of
the counterexample run coincide. -/
theorem c7_all_attempts_write_same_artifact_witness :
    ("output/generated_0/src/lib.rs" : String) = "output/generated_0/src/lib.rs" :=
  c7_all_attempts_write_same_artifact (fun _ => 0) buildFailEnv "/app" "p7" 1 0 1
    ⟨0, none, StageOutcome.recordError "output/generated_0/src/lib.rs" false "E0"
      "compilation_error"⟩
    ⟨1, none, StageOutcome.recordError "output/generated_0/src/lib.rs" false "E0"
      "compilation_error"⟩
    "output/generated_0/src/lib.rs" "output/generated_0/src/lib.rs" rfl rfl rfl rfl

/-- C8, counterexample: the artifact name is not a function of the request
text alone.  Two runs on the same request text `p8` whose processes realize
different builtin hash functions — CPython salts string hashing per process
via PYTHONHASHSEED, so distinct runs legitimately differ here — write
different directories, `generated_0` versus `generated_1`.  So the claim
that the same request text always yields the same `generated_<hash>` name
across runs is false. -/
theorem c8_counterexample_name_depends_on_process_hash :
    (generate_and_test (fun _ => 0) buildFailEnv "/app" "p8" 0).trace.map
        (fun e => writtenPath e.outcome) = [some "output/generated_0/src/lib.rs"]
    ∧ (generate_and_test (fun _ => 1) buildFailEnv "/app" "p8" 0).trace.map
        (fun e => writtenPath e.outcome) = [some "output/generated_1/src/lib.rs"]
    ∧ ("output/generated_0/src/lib.rs" : String) ≠ "output/generated_1/src/lib.rs" :=
  ⟨rfl, rfl, by decide⟩

/-- C8, amended: the artifact name is a deterministic function of the
request text and the process hash function: two runs that share the builtin
hash (same PYTHONHASHSEED) and the same request text write the same artifact
path, whatever their attempt environments, working directories and retry
bounds; and writing into an already existing directory reuses it, replacing
the manifest and source file — writing twice with the same name leaves
exactly the filesystem of the second write (idempotent overwrite, never
append). -/
theorem c8_fixed_hash_determinism_and_overwrite (pyHash : String → Int)
    (env1 env2 : Nat → AttemptEnv) (cwd1 cwd2 prompt : String) (m1 m2 : Nat)
    (i j : Nat) (e1 e2 : TraceEntry) (d1 d2 : String)
    (hi : (generate_and_test pyHash env1 cwd1 prompt m1).trace.get? i = some e1)
    (h1 : writtenPath e1.outcome = some d1)
    (hj : (generate_and_test pyHash env2 cwd2 prompt m2).trace.get? j = some e2)
    (h2 : writtenPath e2.outcome = some d2) :
    d1 = d2
    ∧ ∀ fs c1 c2 n, (_write_code_file (_write_code_file fs c1 n).1 c2 n).1
        = (_write_code_file fs c2 n).1 := by
  constructor
  · unfold generate_and_test at hi hj
    have ha := gatLoop_written pyHash env1 cwd1 m1 prompt (m1 + 1) 0 none
      { prompt := prompt, attempts := [], final_status := "failed",
        retry_count := 0, trace := [], fs := emptyFS } rfl (by simp)
    have hb := gatLoop_written pyHash env2 cwd2 m2 prompt (m2 + 1) 0 none
      { prompt := prompt, attempts := [], final_status := "failed",
        retry_count := 0, trace := [], fs := emptyFS } rfl (by simp)
    rw [ha e1 (List.get?_mem hi) d1 h1, hb e2 (List.get?_mem hj) d2 h2]
  · intro fs c1 c2 n
    funext p
    by_cases hl : p = ("output/" ++ n) ++ "/src/lib.rs"
    · simp [_write_code_file, fsWrite, hl]
    · by_cases ht : p = ("output/" ++ n) ++ "/Cargo.toml"
      · simp [_write_code_file, fsWrite, hl, ht]
      · simp [_write_code_file, fsWrite, hl, ht]

/-- Witness for C8 (amended) at concrete inputs: two runs with the same hash
function and request but different environments and working directories
write the same path, and a double write at a concrete name equals the single
second write. -/
theorem c8_fixed_hash_determinism_and_overwrite_witness :
    ("output/generated_0/src/lib.rs" : String) = "output/generated_0/src/lib.rs"
    ∧ (_write_code_file (_write_code_file emptyFS "one" "nm").1 "two" "nm").1
        = (_write_code_file emptyFS "two" "nm").1 :=
  c8_fixed_hash_determinism_and_overwrite (fun _ => 0) buildFailEnv passEnv
    "/app" "/srv" "p8" 0 0 0 0
    ⟨0, none, StageOutcome.recordError "output/generated_0/src/lib.rs" false "E0"
      "compilation_error"⟩
    ⟨0, none, StageOutcome.recordError "output/generated_0/src/lib.rs" true "ok"
      "test_complete"⟩
    "output/generated_0/src/lib.rs" "output/generated_0/src/lib.rs" rfl rfl rfl rfl
    |>.imp id (fun h => h emptyFS "one" "two" "nm")

/-- C9: batch persistence.  A batch over N requests produces exactly N
persisted documents and N results; the k-th persisted document is the full
accumulated collection of the first k+1 results together with the
recomputed summary.  The summary of a saved collection satisfies:
`successful` counts results whose final status is `passed`, `failed` counts
those whose final status is `failed`, and `retry_rate` times the collection
size equals the sum of the recorded retry counts — i.e. it is the mean for
a non-empty collection — while the empty collection gets `retry_rate = 0`. -/
theorem c9_batch_persistence_and_summary (pyHash : String → Int)
    (envs : Nat → Nat → AttemptEnv) (cwd : String) (prompts : List String)
    (k : Nat) (hk : k < prompts.length) :
    (batch_generate pyHash envs cwd prompts).2.length = prompts.length
    ∧ (batch_generate pyHash envs cwd prompts).1.length = prompts.length
    ∧ (batch_generate pyHash envs cwd prompts).2.get? k
        = some (_save_results ((batch_generate pyHash envs cwd prompts).1.take (k + 1)))
    ∧ (∀ rs : List RunState,
        (_save_results rs).results = rs
        ∧ (_save_results rs).summary.total_attempts = rs.length
        ∧ (_save_results rs).summary.successful
            = rs.countP (fun r => decide (r.final_status = "passed"))
        ∧ (_save_results rs).summary.failed
            = rs.countP (fun r => decide (r.final_status = "failed"))
        ∧ (_save_results rs).summary.retry_rate * (rs.length : ℚ)
            = ((rs.map (fun r => (r.retry_count : ℚ))).sum))
    ∧ (_save_results []).summary.retry_rate = 0 := by
  refine ⟨?_, ?_, ?_, ?_, rfl⟩
  · exact batchLoop_saves_len pyHash envs cwd prompts 0 []
  · show (batchLoop pyHash envs cwd prompts 0 []).1.length = prompts.length
    rw [batchLoop_fst]
    simp [resList_length]
  · show (batchLoop pyHash envs cwd prompts 0 []).2.get? k
      = some (_save_results ((batchLoop pyHash envs cwd prompts 0 []).1.take (k + 1)))
    rw [batchLoop_saves_get pyHash envs cwd prompts 0 [] k hk, batchLoop_fst]
    simp
  · intro rs
    exact ⟨rfl, rfl, save_successful_count rs, save_failed_count rs, save_retry_rate_mul rs⟩

/-- Witness for C9 at a concrete input: a batch of two requests, both of
which exhaust their attempts. -/
theorem c9_batch_persistence_and_summary_witness :
    (1 : Nat) < (["a", "b"] : List String).length
    ∧ (batch_generate (fun _ => 0) (fun _ => buildFailEnv) "/app" ["a", "b"]).2.length = 2
    ∧ (batch_generate (fun _ => 0) (fun _ => buildFailEnv) "/app" ["a", "b"]).2.get? 1
        = some (_save_results
            ((batch_generate (fun _ => 0) (fun _ => buildFailEnv) "/app" ["a", "b"]).1.take 2)) := by
  refine ⟨by decide, ?_, ?_⟩
  · exact (c9_batch_persistence_and_summary (fun _ => 0) (fun _ => buildFailEnv) "/app"
      ["a", "b"] 1 (by decide)).1
  · exact (c9_batch_persistence_and_summary (fun _ => 0) (fun _ => buildFailEnv) "/app"
      ["a", "b"] 1 (by decide)).2.2.1

/-- C10: the signature check is satisfied by plain prose.  The response
`This is a simple explanation, not code.` contains no code fence at all,
yet it contains the indicator substring `impl` (inside the word `simple`),
so `_looks_like_scrypto` accepts it and the whole-response fallback of the
extractor returns the entire prose text as extracted source. -/
theorem c10_prose_with_impl_extracted :
    containsSub "impl".data proseResponse.data = true
    ∧ firstOccur "```".data proseResponse.data = none
    ∧ _looks_like_scrypto proseResponse.data = true
    ∧ _extract_scrypto_code proseResponse.data = some proseResponse.data :=
  ⟨rfl, rfl, rfl, rfl⟩
